import Mathlib

/-!
Verification of the coordination glue of the KG data-engineering knowledge base
(app.py, ingest_documents.py, query_knowledge_base.py): configuration loading,
startup behaviour of the three entry points, the Pinecone index bootstrap, the
upload/ingestion handler, the chat handler, the interactive query loop, and the
top-k retrieval bound.
-/

/-- Process environment, as read by `os.getenv` across the three entry points.
Fields in order: OPENAI_API_KEY, PINECONE_API_KEY, PINECONE_INDEX_NAME,
EMBEDDING_MODEL, CHAT_MODEL, CHUNK_SIZE, CHUNK_OVERLAP, PINECONE_ENVIRONMENT.
`none` means the variable is unset. -/
structure Env where
  openaiKey : Option String
  pineconeKey : Option String
  indexName : Option String
  embeddingModel : Option String
  chatModel : Option String
  chunkSize : Option Nat
  chunkOverlap : Option Nat
  pineconeEnvironment : Option String
deriving DecidableEq

/-- Python truthiness test `not key` on an `os.getenv` result: true when the
variable is unset (`None`) or set to the empty string. -/
def isMissing (v : Option String) : Bool := v.getD "" == ""

/-- The module-level configuration values of app.py (lines 25-31).
Fields in order mirror the module constants: OPENAI_API_KEY, PINECONE_API_KEY,
PINECONE_INDEX_NAME (default "de-knowledge-base"), EMBEDDING_MODEL (default
"text-embedding-3-small"), CHAT_MODEL (default "gpt-4o-mini"), CHUNK_SIZE
(default 1000), CHUNK_OVERLAP (default 200). -/
structure AppConfig where
  openaiKey : String
  pineconeKey : String
  indexName : String
  embeddingModel : String
  chatModel : String
  chunkSize : Nat
  chunkOverlap : Nat
deriving DecidableEq

/-- Embeds app.py lines 25-31: each value is read with `os.getenv`, the
optional ones with the defaults shown there. No relation between chunk size and
chunk overlap is checked anywhere in the module. -/
def appConfig (env : Env) : AppConfig :=
  ⟨env.openaiKey.getD "", env.pineconeKey.getD "",
   env.indexName.getD "de-knowledge-base",
   env.embeddingModel.getD "text-embedding-3-small",
   env.chatModel.getD "gpt-4o-mini",
   env.chunkSize.getD 1000, env.chunkOverlap.getD 200⟩

/-- Observable startup events of an entry-point process: external service
calls, client-handle constructions, and a fatal startup failure. -/
inductive StartEv
| extListIndexes
| extCreateIndex (name : Option String) (dimension : Nat) (metric cloud region : String)
| mkIndexHandle (name : Option String)
| mkEmbedClient (key : Option String)
| mkLLMClient (key : Option String)
| failure (msg : String)
deriving DecidableEq

/-- Whether a startup event is a fatal failure. -/
def isFailureEv : StartEv → Bool
| StartEv.failure _ => true
| _ => false

/-- Whether a startup event reaches an external service. `list_indexes` and
`create_index` are requests to the vector store; creating an index handle
resolves the index host over the network in the pinecone client. Constructing
the embedding/LLM client objects issues no request. -/
def isExternalCallEv : StartEv → Bool
| StartEv.extListIndexes => true
| StartEv.extCreateIndex _ _ _ _ _ => true
| StartEv.mkIndexHandle _ => true
| _ => false

/-- Any fatal failure in a startup trace. -/
def hasFailure (evs : List StartEv) : Bool := evs.any isFailureEv

/-- Any external service call in a startup trace. -/
def hasExternalCall (evs : List StartEv) : Bool := evs.any isExternalCallEv

/-- Embeds the startup sequence of app.py (lines 25-62): values are read, then
`OPENAI_API_KEY` and `PINECONE_API_KEY` are checked (lines 33-36) and a missing
one raises `RuntimeError` before any client is constructed; only afterwards are
the embedding/LLM clients and the Pinecone index handle created. No check
involves the chunk settings. -/
def appStartup (env : Env) : List StartEv :=
  if isMissing env.openaiKey then [StartEv.failure "OPENAI_API_KEY not set"]
  else if isMissing env.pineconeKey then [StartEv.failure "PINECONE_API_KEY not set"]
  else
    [StartEv.mkEmbedClient env.openaiKey, StartEv.mkLLMClient env.openaiKey,
     StartEv.mkIndexHandle (some (appConfig env).indexName)]

/-- Embeds the startup sequence of ingest_documents.py `main` up to and
including `configure_llama_index` (lines 23-68): `setup_pinecone` constructs the
Pinecone client (its constructor rejects a missing key), then unconditionally
calls `pc.list_indexes()`, creates the index (dimension 1536, cosine metric,
aws / PINECONE_ENVIRONMENT default "us-east-1") when its name is not listed —
note line 28 reads `PINECONE_INDEX_NAME` with no default, and a `None` name is
never in the listed names — and takes an index handle; only then does
`configure_llama_index` construct the embedding/LLM clients. The script never
checks `OPENAI_API_KEY` itself. -/
def ingestMainStartup (env : Env) (existing : List String) : List StartEv :=
  if isMissing env.pineconeKey then [StartEv.failure "Pinecone client requires an API key"]
  else
    StartEv.extListIndexes ::
    ((match env.indexName with
      | some n =>
          if n ∈ existing then []
          else [StartEv.extCreateIndex (some n) 1536 "cosine" "aws"
                  (env.pineconeEnvironment.getD "us-east-1")]
      | none => [StartEv.extCreateIndex none 1536 "cosine" "aws"
                  (env.pineconeEnvironment.getD "us-east-1")]) ++
     [StartEv.mkIndexHandle env.indexName, StartEv.mkEmbedClient env.openaiKey,
      StartEv.mkLLMClient env.openaiKey])

/-- Embeds the startup sequence of query_knowledge_base.py (lines 14-31): the
Pinecone client is constructed (its constructor rejects a missing key), an index
handle is taken for `PINECONE_INDEX_NAME` with default "de-knowledge-base", and
the embedding/LLM clients are constructed. The script performs no credential
check of its own. -/
def queryStartup (env : Env) : List StartEv :=
  if isMissing env.pineconeKey then [StartEv.failure "Pinecone client requires an API key"]
  else
    [StartEv.mkIndexHandle (some (env.indexName.getD "de-knowledge-base")),
     StartEv.mkEmbedClient env.openaiKey, StartEv.mkLLMClient env.openaiKey]

/-- Embeds `Settings.chunk_size` / `Settings.chunk_overlap` as set by
`configure_llama_index` (ingest_documents.py lines 65-66): the pair
(chunk size, chunk overlap) with defaults 1000 and 200, set with no validation
and no failure path. -/
def configure_llama_index (env : Env) : Nat × Nat :=
  (env.chunkSize.getD 1000, env.chunkOverlap.getD 200)

/-- The index name used by query_knowledge_base.py line 15:
`os.getenv("PINECONE_INDEX_NAME", "de-knowledge-base")`. -/
def query_index_name (env : Env) : String := env.indexName.getD "de-knowledge-base"

/-- The index name used by ingest_documents.py line 28:
`os.getenv("PINECONE_INDEX_NAME")` — read with NO default, so an unset
variable yields `None`. -/
def ingest_index_name (env : Env) : Option String := env.indexName

/-- A vector collection in the Pinecone account: name, dimension, metric. -/
structure IndexMeta where
  name : String
  dimension : Nat
  metric : String
deriving DecidableEq

/-- Embeds the state effect of `setup_pinecone` (ingest_documents.py lines
23-46) on the account's list of indexes, for a resolved index name: the index
is created — with dimension 1536 and the cosine metric — only when `name` is
not among the listed index names; otherwise the state is untouched. -/
def setup_pinecone (name : String) (existing : List IndexMeta) : List IndexMeta :=
  if name ∈ existing.map IndexMeta.name then existing
  else existing ++ [(⟨name, 1536, "cosine"⟩ : IndexMeta)]

/-- The `files` argument of `ingest_files` (app.py line 77): gradio may pass
`None`, a single `str`/`Path`, or a list of paths. -/
inductive FilesArg
| nofile
| single (p : String)
| many (ps : List String)
deriving DecidableEq

/-- Python truthiness test `not files` (app.py line 79): `None`, the empty
string and the empty list are falsy. -/
def filesFalsy : FilesArg → Bool
| FilesArg.nofile => true
| FilesArg.single p => p == ""
| FilesArg.many ps => ps.isEmpty

/-- Result of `ingest_files`: the two guidance messages, or the call to
`SimpleDirectoryReader(input_files=paths)` with the surviving paths. -/
inductive IngestOutcome
| noUpload
| noValidFiles
| loaded (paths : List String)
deriving DecidableEq

/-- Whether an `ingest_files` outcome is a user-visible guidance message
rather than a loader invocation. -/
def isGuidance : IngestOutcome → Bool
| IngestOutcome.noUpload => true
| IngestOutcome.noValidFiles => true
| IngestOutcome.loaded _ => false

/-- Embeds `ingest_files` (app.py lines 77-90) up to the document-loader call,
over the set `fs` of paths that exist on disk. A falsy argument returns the
"No file uploaded" message (line 80). A single string/Path is wrapped as
`[str(files)]` with NO existence check (lines 82-83), and since that list is
nonempty the loader is always reached. A list is filtered by
`os.path.exists` (line 85); an empty survivor list returns the
"Could not find any valid files" message (lines 87-88), otherwise the loader
is invoked on the survivors (line 90). -/
def ingest_files (files : FilesArg) (fs : List String) : IngestOutcome :=
  if filesFalsy files = true then IngestOutcome.noUpload
  else
    match files with
    | FilesArg.nofile => IngestOutcome.noUpload
    | FilesArg.single p => IngestOutcome.loaded [p]
    | FilesArg.many ps =>
        if ps.filter fs.contains = [] then IngestOutcome.noValidFiles
        else IngestOutcome.loaded (ps.filter fs.contains)

/-- A loaded document: source name and raw text (app.py line 90,
ingest_documents.py lines 80-93). -/
structure Document where
  name : String
  text : String
deriving DecidableEq

/-- The count reported after ingestion: `len(documents)` — the number of
Document objects, used both in app.py line 98 and ingest_documents.py line
138. Chunking happens downstream inside `VectorStoreIndex.from_documents` and
never feeds back into this count. -/
def ingestReportCount (documents : List Document) : Nat := documents.length

/-- Modelled from the spec: chunking itself is delegated to the orchestration
library and is not in src; the spec fixes a sliding window of `size` with
`overlap` shared between neighbours, so successive chunks start `size - overlap`
apart. Fuel-based recursion on the remaining text length; `fuel` is always
taken at least `len + 1` so exhaustion is unreachable. -/
def chunkCountAux : Nat → Nat → Nat → Nat → Nat
| 0, _, _, _ => 1
| Nat.succ fuel, step, size, len =>
    if len ≤ size then 1
    else if step = 0 then 1
    else 1 + chunkCountAux fuel step size (len - step)

/-- Number of chunks produced from a text of length `len` with the given
chunk size and overlap (see `chunkCountAux`). -/
def chunkCount (size overlap len : Nat) : Nat :=
  chunkCountAux (len + 1) (size - overlap) size len

/-- Chunks produced from one document. -/
def docChunks (size overlap : Nat) (d : Document) : Nat :=
  chunkCount size overlap d.text.length

/-- Total chunks produced from a batch of documents. -/
def totalChunks (size overlap : Nat) (docs : List Document) : Nat :=
  (docs.map (docChunks size overlap)).sum

/-- The spec's scenario document: short text, well under one chunk size. -/
def sparkDoc : Document := ⟨"spark.txt", "Spark partitions data across..."⟩

/-- A document of 2000 characters, long enough to span several chunks. -/
def bigDoc : Document := ⟨"big.txt", String.mk (List.replicate 2000 'x')⟩

/-- Outcome of the chat handler: the guidance message, or a call into the
query engine (an external retrieval + completion request) with its answer. -/
inductive ChatOut
| guidance (msg : String)
| answered (question answer : String)
deriving DecidableEq

/-- Whether the chat handler answered with guidance only (no external call). -/
def isGuidanceChat : ChatOut → Bool
| ChatOut.guidance _ => true
| ChatOut.answered _ _ => false

/-- Embeds `chat` (app.py lines 69-74): the guard is `if not message`, i.e.
only the empty string is rejected; any other message — including
whitespace-only text — is passed to `query_engine.query`. `engineAnswer`
stands for the external query engine. -/
def chat (engineAnswer : String → String) (message : String) : ChatOut :=
  if message = "" then ChatOut.guidance "Please type a question."
  else ChatOut.answered message (engineAnswer message)

/-- Python blank test `not q.strip()`: true exactly when every character of
the line is whitespace. -/
def isBlank (s : String) : Bool := s.data.all Char.isWhitespace

/-- Observable events of the interactive query loop: an external query-engine
call, the printed answer, and the exit message printed on EOF/interrupt. -/
inductive QEv
| query (q : String)
| printAns (a : String)
| printExit
deriving DecidableEq

/-- Embeds the query loop (query_knowledge_base.py lines 36-45) over the list
of lines available on standard input before end-of-input or interrupt: a blank
line is skipped (`continue`), a non-blank line is sent to `qa.query` and its
answer printed, and the EOFError/KeyboardInterrupt terminator is caught,
printing the exit message and breaking out of the loop. -/
def queryLoop (engineAnswer : String → String) : List String → List QEv
| [] => [QEv.printExit]
| q :: rest =>
    if isBlank q then queryLoop engineAnswer rest
    else QEv.query q :: QEv.printAns (engineAnswer q) :: queryLoop engineAnswer rest

/-- The questions actually sent to the external query engine, in order. -/
def queriesOf : List QEv → List String
| [] => []
| QEv.query q :: rest => q :: queriesOf rest
| QEv.printAns _ :: rest => queriesOf rest
| QEv.printExit :: rest => queriesOf rest

/-- The answers printed, in order. -/
def answersOf : List QEv → List String
| [] => []
| QEv.query _ :: rest => answersOf rest
| QEv.printAns a :: rest => a :: answersOf rest
| QEv.printExit :: rest => answersOf rest

/-- Configuration of a query engine as built by `as_query_engine`. -/
structure QueryEngineConfig where
  similarityTopK : Nat
deriving DecidableEq

/-- app.py line 62: `query_engine = index.as_query_engine(similarity_top_k=5)`. -/
def query_engine : QueryEngineConfig := ⟨5⟩

/-- query_knowledge_base.py line 31: `qa = index.as_query_engine(similarity_top_k=5)`. -/
def qa : QueryEngineConfig := ⟨5⟩

/-- A persisted record in the vector store: identifier, text, similarity
score against the current query. -/
structure IndexRecord where
  id : String
  text : String
  score : Int
deriving DecidableEq

/-- Insert a record into a list kept sorted by descending score. -/
def insertByScore (r : IndexRecord) : List IndexRecord → List IndexRecord
| [] => [r]
| x :: xs => if x.score ≤ r.score then r :: x :: xs else x :: insertByScore r xs

/-- Sort records by descending score (insertion sort). -/
def sortByScore : List IndexRecord → List IndexRecord
| [] => []
| x :: xs => insertByScore x (sortByScore xs)

/-- Modelled from the spec: nearest-neighbor retrieval is delegated to the
external vector store (not in src); the spec's wire contract is that a query
returns the `k` nearest records by similarity, i.e. the first `k` of the
records ordered by score. -/
def retrieveTopK (k : Nat) (records : List IndexRecord) : List IndexRecord :=
  (sortByScore records).take k

-- ------------------------------------------------------------------
-- Concrete environments used by the closed statements below
-- ------------------------------------------------------------------

/-- Environment with the embedding credential absent and the vector-store
credential present; index name set to the default name. -/
def envNoOpenAI : Env :=
  ⟨none, some "pk", some "de-knowledge-base", none, none, none, none, none⟩

/-- Environment with both credentials present and CHUNK_SIZE=100,
CHUNK_OVERLAP=200 — overlap strictly greater than size. -/
def envBadChunks : Env :=
  ⟨some "sk", some "pk", none, none, none, some 100, some 200, none⟩

/-- Environment with both credentials present and PINECONE_INDEX_NAME unset. -/
def envNoIndexName : Env :=
  ⟨some "sk", some "pk", none, none, none, none, none, none⟩

-- ------------------------------------------------------------------
-- Helper lemmas
-- ------------------------------------------------------------------

lemma queryLoop_queriesOf (f : String → String) (lines : List String) :
    queriesOf (queryLoop f lines) = lines.filter (fun l => !(isBlank l)) := by
  induction lines with
  | nil => rfl
  | cons q rest ih =>
      cases h : isBlank q with
      | true => simp [queryLoop, h, ih]
      | false => simp [queryLoop, queriesOf, h, ih]

lemma queryLoop_answersOf (f : String → String) (lines : List String) :
    answersOf (queryLoop f lines) = (lines.filter (fun l => !(isBlank l))).map f := by
  induction lines with
  | nil => rfl
  | cons q rest ih =>
      cases h : isBlank q with
      | true => simp [queryLoop, h, ih]
      | false => simp [queryLoop, answersOf, h, ih]

lemma queryLoop_endsWithExit (f : String → String) (lines : List String) :
    ∃ pre, queryLoop f lines = pre ++ [QEv.printExit] := by
  induction lines with
  | nil => exact ⟨[], rfl⟩
  | cons q rest ih =>
      obtain ⟨pre, hpre⟩ := ih
      cases h : isBlank q with
      | true => exact ⟨pre, by simp [queryLoop, h, hpre]⟩
      | false => exact ⟨QEv.query q :: QEv.printAns (f q) :: pre, by simp [queryLoop, h, hpre]⟩

lemma length_insertByScore (r : IndexRecord) (l : List IndexRecord) :
    (insertByScore r l).length = l.length + 1 := by
  induction l with
  | nil => rfl
  | cons x xs ih =>
      by_cases h : x.score ≤ r.score
      · simp [insertByScore, h]
      · simp [insertByScore, h, ih]

lemma length_sortByScore (l : List IndexRecord) :
    (sortByScore l).length = l.length := by
  induction l with
  | nil => rfl
  | cons x xs ih => simp [sortByScore, length_insertByScore, ih]

-- ------------------------------------------------------------------
-- Claim theorems
-- ------------------------------------------------------------------

/-- Claim C1, counterexample: the whitespace-only message "   " is blank, yet
the chat handler does not return guidance — it passes the message to the query
engine, issuing an external call. -/
theorem chat_whitespace_reaches_engine :
    isBlank "   " = true ∧
    chat (fun q => q) "   " = ChatOut.answered "   " "   " ∧
    isGuidanceChat (chat (fun q => q) "   ") = false := by
  decide

/-- Claim C1, as amended: empty input to the chat handler yields the guidance
message with no engine call; any non-empty message — whitespace-only ones
included — is passed to the query engine; the interactive query loop issues a
query for exactly the non-blank lines (blank lines cause no external call). -/
theorem blank_input_behavior :
    (∀ engineAnswer : String → String,
      chat engineAnswer "" = ChatOut.guidance "Please type a question.") ∧
    (∀ (engineAnswer : String → String) (m : String), m ≠ "" →
      chat engineAnswer m = ChatOut.answered m (engineAnswer m)) ∧
    (∀ (engineAnswer : String → String) (lines : List String),
      queriesOf (queryLoop engineAnswer lines) = lines.filter (fun l => !(isBlank l))) := by
  refine ⟨fun f => rfl, fun f m hm => ?_, fun f lines => queryLoop_queriesOf f lines⟩
  simp [chat, hm]

/-- Witness for `blank_input_behavior` at concrete inputs. -/
theorem blank_input_behavior_witness :
    chat (fun _ => "A") "" = ChatOut.guidance "Please type a question." ∧
    chat (fun _ => "A") "hi" = ChatOut.answered "hi" "A" ∧
    queriesOf (queryLoop (fun _ => "A") ["   ", "q1"]) = ["q1"] := by
  refine ⟨blank_input_behavior.1 (fun _ => "A"),
          blank_input_behavior.2.1 (fun _ => "A") "hi" (by decide), ?_⟩
  rw [blank_input_behavior.2.2 (fun _ => "A") ["   ", "q1"]]
  decide

/-- Claim C2: the code contains no chunk-overlap validation. In the
environment with CHUNK_SIZE=100 and CHUNK_OVERLAP=200 (overlap greater than
size, both credentials present), app.py completes startup with no failure and
`configure_llama_index` happily sets the degenerate pair — no ConfigError is
ever raised, contradicting the claimed validation. -/
theorem overlap_ge_size_passes_startup :
    (appConfig envBadChunks).chunkSize = 100 ∧
    (appConfig envBadChunks).chunkOverlap = 200 ∧
    ¬ (appConfig envBadChunks).chunkOverlap < (appConfig envBadChunks).chunkSize ∧
    hasFailure (appStartup envBadChunks) = false ∧
    configure_llama_index envBadChunks = (100, 200) := by
  decide

/-- Claim C3, counterexample: with the embedding credential absent (and the
vector-store credential present), the batch ingestion script still issues the
external `list_indexes` call — it does not fail before making external
calls. -/
theorem ingest_calls_vector_store_without_embedding_credential :
    isMissing envNoOpenAI.openaiKey = true ∧
    StartEv.extListIndexes ∈ ingestMainStartup envNoOpenAI ["de-knowledge-base"] ∧
    hasExternalCall (ingestMainStartup envNoOpenAI ["de-knowledge-base"]) = true := by
  decide

/-- Claim C3, as amended: only the chat UI process validates credentials at
startup — with either credential missing it fails before any external call;
the batch ingestion script issues the vector-store `list_indexes` call
regardless of the embedding credential; the interactive query loop performs no
credential check of its own (no src-level failure when the vector-store
credential is present). -/
theorem credential_check_per_entry_point :
    (∀ env : Env, (isMissing env.openaiKey = true ∨ isMissing env.pineconeKey = true) →
      hasFailure (appStartup env) = true ∧ hasExternalCall (appStartup env) = false) ∧
    (∀ (env : Env) (existing : List String), isMissing env.pineconeKey = false →
      StartEv.extListIndexes ∈ ingestMainStartup env existing) ∧
    (∀ env : Env, isMissing env.pineconeKey = false →
      hasFailure (queryStartup env) = false) := by
  refine ⟨fun env h => ?_, fun env existing hp => ?_, fun env hp => ?_⟩
  · cases ho : isMissing env.openaiKey with
    | true => simp [appStartup, ho, hasFailure, hasExternalCall, isFailureEv, isExternalCallEv]
    | false =>
        have hp : isMissing env.pineconeKey = true := by
          rcases h with h1 | h2
          · rw [ho] at h1; exact absurd h1 (by decide)
          · exact h2
        simp [appStartup, ho, hp, hasFailure, hasExternalCall, isFailureEv, isExternalCallEv]
  · simp [ingestMainStartup, hp]
  · simp [queryStartup, hp, hasFailure, isFailureEv]

/-- Witness for `credential_check_per_entry_point` at the concrete environment
with the embedding credential absent and the vector-store credential set. -/
theorem credential_check_per_entry_point_witness :
    (hasFailure (appStartup envNoOpenAI) = true ∧
     hasExternalCall (appStartup envNoOpenAI) = false) ∧
    StartEv.extListIndexes ∈ ingestMainStartup envNoOpenAI [] ∧
    hasFailure (queryStartup envNoOpenAI) = false :=
  ⟨credential_check_per_entry_point.1 envNoOpenAI (Or.inl (by decide)),
   credential_check_per_entry_point.2.1 envNoOpenAI [] (by decide),
   credential_check_per_entry_point.2.2 envNoOpenAI (by decide)⟩

/-- Claim C4: `setup_pinecone` is idempotent — running it a second time with
the same name changes nothing; when the name is absent it appends exactly one
collection with dimension 1536 and cosine metric; when the name is present the
account state is untouched (no error path, no duplicate). -/
theorem ensure_index_idempotent (name : String) (existing : List IndexMeta) :
    setup_pinecone name (setup_pinecone name existing) = setup_pinecone name existing ∧
    (name ∉ existing.map IndexMeta.name →
      setup_pinecone name existing = existing ++ [(⟨name, 1536, "cosine"⟩ : IndexMeta)]) ∧
    (name ∈ existing.map IndexMeta.name → setup_pinecone name existing = existing) := by
  refine ⟨?_, fun h => by simp [setup_pinecone, h], fun h => by simp [setup_pinecone, h]⟩
  by_cases h : name ∈ existing.map IndexMeta.name
  · simp [setup_pinecone, h]
  · have h2 : name ∈ (existing ++ [(⟨name, 1536, "cosine"⟩ : IndexMeta)]).map IndexMeta.name := by
      simp
    simp [setup_pinecone, h, h2]

/-- Witness for `ensure_index_idempotent` on an empty account and the default
index name. -/
theorem ensure_index_idempotent_witness :
    setup_pinecone "de-knowledge-base" (setup_pinecone "de-knowledge-base" []) =
      setup_pinecone "de-knowledge-base" [] ∧
    setup_pinecone "de-knowledge-base" [] =
      [] ++ [(⟨"de-knowledge-base", 1536, "cosine"⟩ : IndexMeta)] :=
  ⟨(ensure_index_idempotent "de-knowledge-base" []).1,
   (ensure_index_idempotent "de-knowledge-base" []).2.1 (by decide)⟩

/-- Claim C5: a list input to `ingest_files` is filtered to the paths that
exist; when no path survives the handler returns a guidance message (not an
error, and the loader is never invoked), and when some survive the loader is
invoked on exactly the surviving paths. -/
theorem run_nothing_to_do (ps fs : List String) :
    (ps.filter fs.contains = [] → isGuidance (ingest_files (FilesArg.many ps) fs) = true) ∧
    (ps.filter fs.contains ≠ [] →
      ingest_files (FilesArg.many ps) fs = IngestOutcome.loaded (ps.filter fs.contains)) := by
  constructor
  · intro h
    by_cases hf : filesFalsy (FilesArg.many ps) = true
    · simp [ingest_files, hf, isGuidance]
    · simp [ingest_files, hf, h, isGuidance]
  · intro h
    have hf : ¬ filesFalsy (FilesArg.many ps) = true := by
      cases ps with
      | nil => exact absurd rfl h
      | cons a l => simp [filesFalsy]
    simp [ingest_files, hf, h]

/-- Witness for `run_nothing_to_do`: the spec's missing-file scenario returns
guidance, and a list with one existing file loads exactly that file. -/
theorem run_nothing_to_do_witness :
    isGuidance (ingest_files (FilesArg.many ["missing.txt"]) []) = true ∧
    ingest_files (FilesArg.many ["doc.txt"]) ["doc.txt"] = IngestOutcome.loaded ["doc.txt"] := by
  refine ⟨(run_nothing_to_do ["missing.txt"] []).1 (by decide), ?_⟩
  rw [(run_nothing_to_do ["doc.txt"] ["doc.txt"]).2 (by decide)]
  decide

/-- Claim C6: a single string/Path argument is wrapped as a one-element list
with no existence check, so a nonexistent path reaches the document loader —
whereas the same path inside a list is filtered out and yields the guidance
message. -/
theorem single_path_skips_existence_check (p : String) (fs : List String)
    (hp : p ≠ "") (hfs : p ∉ fs) :
    ingest_files (FilesArg.single p) fs = IngestOutcome.loaded [p] ∧
    ingest_files (FilesArg.many [p]) fs = IngestOutcome.noValidFiles := by
  have hf : ¬ filesFalsy (FilesArg.single p) = true := by
    simp [filesFalsy, hp]
  have hfilter : ([p].filter fs.contains) = [] := by
    simp [List.filter_cons, hfs]
  constructor
  · simp [ingest_files, hf]
  · have hm : ¬ filesFalsy (FilesArg.many [p]) = true := by
      simp [filesFalsy]
    simp [ingest_files, hm, hfilter]

/-- Witness for `single_path_skips_existence_check` at the nonexistent path
"missing.txt". -/
theorem single_path_skips_existence_check_witness :
    ingest_files (FilesArg.single "missing.txt") [] = IngestOutcome.loaded ["missing.txt"] ∧
    ingest_files (FilesArg.many ["missing.txt"]) [] = IngestOutcome.noValidFiles :=
  single_path_skips_existence_check "missing.txt" [] (by decide) (by decide)

/-- Claim C7: the reported ingestion count is the number of Documents, for
every batch; on the spec's one-chunk scenario document the count is 1 with 1
chunk, and on a 2000-character document (3 chunks at size 1000 / overlap 200)
the count is still 1 — the report counts documents, not chunks. -/
theorem ingest_reports_document_count :
    (∀ documents : List Document, ingestReportCount documents = documents.length) ∧
    ingestReportCount [sparkDoc] = 1 ∧ totalChunks 1000 200 [sparkDoc] = 1 ∧
    ingestReportCount [bigDoc] = 1 ∧ totalChunks 1000 200 [bigDoc] = 3 ∧
    ingestReportCount [bigDoc] ≠ totalChunks 1000 200 [bigDoc] := by
  have hlen : bigDoc.text.length = 2000 := by
    show (List.replicate 2000 'x').length = 2000
    exact List.length_replicate 2000 'x'
  have hchain : totalChunks 1000 200 [bigDoc] = chunkCount 1000 200 bigDoc.text.length := by
    simp [totalChunks, docChunks]
  have h3 : totalChunks 1000 200 [bigDoc] = 3 := by
    rw [hchain, hlen]
    decide
  refine ⟨fun _ => rfl, rfl, by decide, rfl, h3, ?_⟩
  rw [h3]
  decide

/-- Claim C8, counterexample: with PINECONE_INDEX_NAME unset, the batch
ingestion script gets no index name at all (line 28 has no default), while
app.py resolves the default "de-knowledge-base" — so not every entry point
uses the default. -/
theorem ingest_script_lacks_index_name_default :
    ingest_index_name envNoIndexName = none ∧
    ingest_index_name envNoIndexName ≠ some "de-knowledge-base" ∧
    (appConfig envNoIndexName).indexName = "de-knowledge-base" := by
  decide

/-- Claim C8, as amended: with the index-name variable unset, the chat UI and
the interactive query loop use the default "de-knowledge-base", but the batch
ingestion script reads the variable with no default and gets `None`. -/
theorem index_name_default_per_entry_point :
    ∀ env : Env, env.indexName = none →
      (appConfig env).indexName = "de-knowledge-base" ∧
      query_index_name env = "de-knowledge-base" ∧
      ingest_index_name env = none := by
  intro env h
  simp [appConfig, query_index_name, ingest_index_name, h]

/-- Witness for `index_name_default_per_entry_point` at the concrete
environment with the variable unset. -/
theorem index_name_default_per_entry_point_witness :
    (appConfig envNoIndexName).indexName = "de-knowledge-base" ∧
    query_index_name envNoIndexName = "de-knowledge-base" ∧
    ingest_index_name envNoIndexName = none :=
  index_name_default_per_entry_point envNoIndexName rfl

/-- Claim C9: for every input-line stream and engine, the loop queries exactly
the non-blank lines in order, prints exactly their answers in order, and its
event trace always ends with the clean exit message triggered by
end-of-input/interrupt (the loop is a total function — no uncaught
exception). -/
theorem query_loop_behavior :
    ∀ (engineAnswer : String → String) (lines : List String),
      queriesOf (queryLoop engineAnswer lines) = lines.filter (fun l => !(isBlank l)) ∧
      answersOf (queryLoop engineAnswer lines) =
        (lines.filter (fun l => !(isBlank l))).map engineAnswer ∧
      ∃ pre, queryLoop engineAnswer lines = pre ++ [QEv.printExit] :=
  fun f lines =>
    ⟨queryLoop_queriesOf f lines, queryLoop_answersOf f lines, queryLoop_endsWithExit f lines⟩

/-- Claim C10: both query engines are configured with similarity_top_k = 5,
and top-k retrieval returns at most k records for every store and every k. -/
theorem topk_bounds_retrieved_records :
    query_engine.similarityTopK = 5 ∧ qa.similarityTopK = 5 ∧
    ∀ (k : Nat) (records : List IndexRecord), (retrieveTopK k records).length ≤ k := by
  refine ⟨rfl, rfl, fun k records => ?_⟩
  show ((sortByScore records).take k).length ≤ k
  rw [List.length_take]
  exact Nat.min_le_left _ _
